import Mathlib

/-!
Verification of the moderator-bot complaint-decision and balance-adjustment
workflow.  The definitions below are a shallow embedding of the Python source:

* `moderator_bot/database/operations.py` — the persistence gateway; the
  relational store is modelled as a `Store` of association lists keyed by id,
  and every `db_*` function below mirrors the SQL its Python namesake runs.
* `moderator_bot/services.py` — the decision engine
  (`apply_complaint_decision`) and the balance reservation guard
  (`release_reserved_balance`).
* `moderator_bot/transport.py` — media resolution (`resolve_media_source`),
  with the filesystem modelled as a list of existing absolute paths.

Python truthiness on nullable columns is made explicit: a SQL NULL is `none`,
and the Python patterns `x if x else d` / `x or d` treat both `none` and `0`
(resp. the empty string) as falsy.
-/

set_option autoImplicit false

namespace ModeratorBot

/-! ### Association-list primitives standing for rows keyed by primary key -/

/-- First row with the given key — the row a `SELECT ... WHERE id=$1` returns. -/
def lookupA {α : Type} : List (Int × α) → Int → Option α
  | [], _ => none
  | (k, v) :: rest, key => if k = key then some v else lookupA rest key

/-- Apply `f` to every row with the given key — an `UPDATE ... WHERE id=$1`. -/
def updateA {α : Type} (f : α → α) : List (Int × α) → Int → List (Int × α)
  | [], _ => []
  | (k, v) :: rest, key =>
      if k = key then (k, f v) :: updateA f rest key
      else (k, v) :: updateA f rest key

/-- SQL `COALESCE(x, d)` on a nullable integer column. -/
def coalesceI (x : Option Int) (d : Int) : Int :=
  match x with
  | none => d
  | some v => v

/-- SQL `COALESCE(x, d)` on a nullable text column. -/
def coalesceS (x : Option String) (d : String) : String :=
  match x with
  | none => d
  | some v => v

/-- Python truthiness of an optional string: `None` and `""` are falsy. -/
def truthyS (x : Option String) : Option String :=
  match x with
  | none => none
  | some s => if s = "" then none else some s

/-- Python truthiness of an optional integer: `None` and `0` are falsy. -/
def truthyI (x : Option Int) : Option Int :=
  match x with
  | none => none
  | some v => if v = 0 then none else some v

/-! ### Data model: the rows the modelled operations read or write.

Columns the modelled operations never touch (timestamps, usernames,
referrers, file paths, dispatched flags, …) are omitted. -/

/-- A row of `users`: `balance` and `reserved_balance` are nullable integers. -/
structure UserRow where
  balance : Option Int
  reserved_balance : Option Int
deriving Repr, DecidableEq

/-- A row of `complaints` restricted to the columns the decision engine reads
or writes: owning user, subcategory reference, status, owning bot. -/
structure ComplaintRow where
  user_id : Int
  subcategory_id : Option Int
  status : String
  bot_id : Option String
deriving Repr, DecidableEq

/-- A row of `generation_queue` restricted to what the guard reads. -/
structure TaskRow where
  user_id : Int
  status : Option String
deriving Repr, DecidableEq

/-- A row of `subcategories` restricted to what the cost lookup reads. -/
structure SubcategoryRow where
  is_active : Bool
  duration : Option Int
  price : Option Int
  scenario_id : Int
deriving Repr, DecidableEq

/-- A row of `scenario` restricted to what the cost lookup reads. -/
structure ScenarioRow where
  difficulty : Option String
deriving Repr, DecidableEq

/-- The relational store: each table as an association list keyed by id
(`users.user_id`, `complaints.id`, `subcategories.id`, `scenario.id`);
`generation_queue` is scanned by `user_id`, so it is kept as a bare list. -/
structure Store where
  users : List (Int × UserRow)
  complaints : List (Int × ComplaintRow)
  tasks : List TaskRow
  subcategories : List (Int × SubcategoryRow)
  scenarios : List (Int × ScenarioRow)
deriving Repr, DecidableEq

/-! ### Cost policy — `db_get_generation_cost_by_subcategory` -/

/-- Python `str.lower()` on the ASCII difficulty tags (character-wise). -/
def lowerStr (s : String) : String :=
  ⟨s.data.map Char.toLower⟩

/-- The lookup `cost_matrix[duration_key].get(difficulty, 110)`: the hand-tuned pricing
table, consulted with the already-lowercased difficulty tag. -/
def cost_matrix_lookup (duration_key : Int) (difficulty : String) : Int :=
  if duration_key = 5 then
    if difficulty = "low" then 70
    else if difficulty = "medium" then 90
    else if difficulty = "high" then 110
    else 110
  else if duration_key = 10 then
    if difficulty = "low" then 90
    else if difficulty = "medium" then 110
    else if difficulty = "high" then 130
    else 110
  else if duration_key = 15 then
    if difficulty = "low" then 110
    else if difficulty = "medium" then 130
    else if difficulty = "high" then 150
    else 110
  else 110

/-- The pure core of `db_get_generation_cost_by_subcategory`, applied to the
fetched row `(s.duration, s.price, sc.difficulty)`:
`duration = row["duration"] if row["duration"] else 10`,
`old_price = row["price"] if row["price"] else None`, then either the
difficulty matrix (duration bucketed into 5/10/15), the legacy price, or 200. -/
def generation_cost_policy (duration price : Option Int) (difficulty : Option String) : Int :=
  let dur := coalesceI (truthyI duration) 10
  let old_price := truthyI price
  match truthyS difficulty with
  | some diff =>
      let duration_key : Int := if dur ≤ 5 then 5 else if dur ≤ 10 then 10 else 15
      cost_matrix_lookup duration_key (lowerStr diff)
  | none =>
      match old_price with
      | some p => p
      | none => 200

/-- The `SELECT s.duration, s.price, sc.difficulty FROM subcategories s JOIN
scenario sc ON s.scenario_id = sc.id WHERE s.id = $1 AND s.is_active = TRUE`
fetch: `none` when the subcategory is missing, inactive, or the join finds no
scenario. -/
def subcategory_cost_row (st : Store) (sid : Int) :
    Option (Option Int × Option Int × Option String) :=
  match lookupA st.subcategories sid with
  | none => none
  | some s =>
      if s.is_active then
        match lookupA st.scenarios s.scenario_id with
        | none => none
        | some sc => some (s.duration, s.price, sc.difficulty)
      else none

/-- Embeds `db_get_generation_cost_by_subcategory`: 200 when no row is fetched,
otherwise the pure cost policy on the fetched row. -/
def db_get_generation_cost_by_subcategory (st : Store) (sid : Int) : Int :=
  match subcategory_cost_row st sid with
  | none => 200
  | some (duration, price, difficulty) => generation_cost_policy duration price difficulty

/-! ### Persistence gateway: the remaining `db_*` operations -/

/-- Embeds `db_get_complaint_by_id`: `SELECT ... FROM complaints c ... WHERE c.id=$1`. -/
def db_get_complaint_by_id (st : Store) (cid : Int) : Option ComplaintRow :=
  lookupA st.complaints cid

/-- Embeds `db_update_complaint_status`: unconditional
`UPDATE complaints SET status=$1 WHERE id=$2` — no check of the current
status; a missing id simply updates zero rows. -/
def db_update_complaint_status (st : Store) (cid : Int) (status : String) : Store :=
  { st with complaints := updateA (fun c => { c with status := status }) st.complaints cid }

/-- Embeds `db_add_credits`: `INSERT INTO users(user_id, balance) VALUES($1,0)
ON CONFLICT(user_id) DO NOTHING` followed by
`UPDATE users SET balance = COALESCE(balance, 0) + $1 WHERE user_id=$2`. -/
def db_add_credits (st : Store) (uid delta : Int) : Store :=
  let users1 :=
    match lookupA st.users uid with
    | some _ => st.users
    | none => st.users ++ [(uid, { balance := some 0, reserved_balance := none })]
  { st with
    users := updateA (fun u => { u with balance := some (coalesceI u.balance 0 + delta) }) users1 uid }

/-- The dict `db_get_user` builds from the fetched row: `balance` is the raw
nullable column; the `reserved_balance` entry is `row.get("reserved_balance", 0)`. -/
structure UserDict where
  balance : Option Int
  reserved_balance : Int
deriving Repr, DecidableEq

/-- Embeds `db_get_user`: `SELECT ..., balance, ..., COALESCE(reserved_balance, 0),
... FROM users WHERE user_id=$1`, `None` when the row is absent.  The
`COALESCE(reserved_balance, 0)` output column carries no alias, so PostgreSQL
names it `coalesce` and the fetched record has no `reserved_balance` key:
the dict construction `row.get("reserved_balance", 0)` always takes the
default, so the dict's `reserved_balance` entry is the constant 0 — never the
stored reserve. -/
def db_get_user (st : Store) (uid : Int) : Option UserDict :=
  (lookupA st.users uid).map
    (fun u => { balance := u.balance, reserved_balance := 0 })

/-- The `EXISTS(SELECT 1 FROM generation_queue WHERE user_id = $1 AND
COALESCE(status, 'processing') NOT IN ('failed', 'success', 'completed'))`
query of `db_user_has_active_generations`. -/
def has_active_generations_query (st : Store) (uid : Int) : Bool :=
  st.tasks.any (fun t =>
    t.user_id == uid &&
    !(["failed", "success", "completed"].contains (coalesceS t.status "processing")))

/-- Embeds `db_user_has_active_generations`: runs the query inside `try`; any
exception (`queryOk = false`) is logged and the function returns `True`. -/
def db_user_has_active_generations (st : Store) (uid : Int) (queryOk : Bool) : Bool :=
  if queryOk then has_active_generations_query st uid else true

/-- Embeds `db_reset_reserved_balance`: fetches `COALESCE(reserved_balance, 0)`,
returns 0 (no write) when the row is absent or the amount is falsy or ≤ 0,
otherwise zeroes `reserved_balance` and returns the fetched amount; an
exception anywhere (`queryOk = false`) is logged and yields 0. -/
def db_reset_reserved_balance (st : Store) (uid : Int) (queryOk : Bool) : Store × Int :=
  if queryOk then
    match (lookupA st.users uid).map (fun u => coalesceI u.reserved_balance 0) with
    | none => (st, 0)
    | some amount =>
        if amount ≤ 0 then (st, 0)
        else
          ({ st with
             users := updateA (fun u => { u with reserved_balance := some 0 }) st.users uid },
           amount)
  else (st, 0)

/-! ### Decision engine — `apply_complaint_decision` -/

/-- The two keys of the `COMPLAINT_DECISIONS` dict in `models.py`. -/
inductive DecisionKey
  | accept
  | reject
deriving Repr, DecidableEq

/-- One entry of `COMPLAINT_DECISIONS`; `user_message` is the `.format` of the
template with `amount` and `complaint_id`. -/
structure DecisionConfig where
  status : String
  delta_sign : Int
  user_message : Int → Int → String
  moderator_success : String
  moderator_warning : String

/-- The `COMPLAINT_DECISIONS` dict from `models.py`. -/
def COMPLAINT_DECISIONS : DecisionKey → DecisionConfig
  | .accept =>
      { status := "accepted"
        delta_sign := 1
        user_message := fun amount complaint_id =>
          "✅ <b>Ваша жалоба была рассмотрена и принята</b>\n\n" ++
          "Вернули " ++ toString amount ++ " кредитов за генерацию на ваш баланс.\n" ++
          "ID жалобы: #" ++ toString complaint_id
        moderator_success := "✅ Жалоба принята, пользователь уведомлен"
        moderator_warning := "✅ Жалоба принята, но ошибка уведомления пользователя" }
  | .reject =>
      { status := "rejected"
        delta_sign := -1
        user_message := fun amount complaint_id =>
          "❌ <b>Ваша жалоба была отклонена</b>\n\n" ++
          "С баланса списали " ++ toString amount ++ " кредитов (двойная плата за генерацию).\n" ++
          "ID жалобы: #" ++ toString complaint_id
        moderator_success := "❌ Жалоба отклонена, пользователь уведомлен"
        moderator_warning := "❌ Жалоба отклонена, но ошибка уведомления пользователя" }

/-- The dataclass returned by `apply_complaint_decision`. -/
structure ComplaintDecisionResult where
  complaint_id : Int
  user_id : Int
  bot_hash : Option String
  user_message : String
  status : String
  moderator_success : String
  moderator_warning : String
deriving Repr, DecidableEq

/-- One database side effect of the decision engine, recorded in source order
so the sequencing of the steps is observable. -/
inductive DbEvent
  | getComplaint (cid : Int)
  | updateStatus (cid : Int) (status : String)
  | costLookup (sid : Int)
  | addCredits (uid : Int) (delta : Int)
deriving Repr, DecidableEq

/-- Embeds `apply_complaint_decision` from `services.py`, line for line: fetch the
complaint (absent → `None`); update the status; cost 200 unless a truthy
`subcategory_id` sends it through the cost lookup; apply the signed credit
delta; build the result.  The third component is the trace of database
side effects in the order the source performs them. -/
def apply_complaint_decision (st : Store) (complaint_id : Int) (action_key : DecisionKey) :
    Store × Option ComplaintDecisionResult × List DbEvent :=
  match db_get_complaint_by_id st complaint_id with
  | none => (st, none, [.getComplaint complaint_id])
  | some complaint =>
      let config := COMPLAINT_DECISIONS action_key
      let st1 := db_update_complaint_status st complaint_id config.status
      let user_id := complaint.user_id
      let costAndTrace : Int × List DbEvent :=
        match truthyI complaint.subcategory_id with
        | some sid => (db_get_generation_cost_by_subcategory st1 sid, [.costLookup sid])
        | none => (200, [])
      let generation_cost := costAndTrace.1
      let st2 := db_add_credits st1 user_id (generation_cost * config.delta_sign)
      (st2,
       some
         { complaint_id := complaint_id
           user_id := user_id
           bot_hash := complaint.bot_id
           user_message := config.user_message generation_cost complaint_id
           status := config.status
           moderator_success := config.moderator_success
           moderator_warning := config.moderator_warning },
       [.getComplaint complaint_id, .updateStatus complaint_id config.status] ++
         costAndTrace.2 ++
         [.addCredits user_id (generation_cost * config.delta_sign)])

/-! ### Balance reservation guard — `release_reserved_balance` -/

/-- The dataclass returned by `release_reserved_balance`. -/
structure ReleaseReservedResult where
  success : Bool
  released : Int
  message : String
  alert_text : Option String
deriving Repr, DecidableEq

/-- Embeds `release_reserved_balance` from `services.py`: user absent → failure;
`reserved <= 0` → failure; active generations (or a failing active-check
query, which reports `True`) → refusal; otherwise zero the reserve and
succeed, unless the zeroing step reports a non-positive released amount. -/
def release_reserved_balance (st : Store) (uid : Int) (activeQueryOk resetQueryOk : Bool) :
    Store × ReleaseReservedResult :=
  match db_get_user st uid with
  | none =>
      (st, ⟨false, 0, "❌ Пользователь не найден", some "❌ Пользователь не найден"⟩)
  | some user_data =>
      let reserved := user_data.reserved_balance
      if reserved ≤ 0 then
        (st, ⟨false, 0, "ℹ️ Резервов нет", some "ℹ️ Резервов нет"⟩)
      else if db_user_has_active_generations st uid activeQueryOk then
        (st,
         ⟨false, reserved, "⚠️ Есть активные генерации, резерв снять нельзя",
          some "⚠️ Есть активные генерации, резерв снять нельзя"⟩)
      else
        let reset := db_reset_reserved_balance st uid resetQueryOk
        if reset.2 ≤ 0 then
          (reset.1, ⟨false, 0, "❌ Не удалось снять резерв", some "❌ Не удалось снять резерв"⟩)
        else
          (reset.1,
           ⟨true, reset.2,
            "🧹 Снято " ++ toString reset.2 ++ " зарезервированных кредитов.", none⟩)

/-! ### Transport adapter — `resolve_media_source` from `transport.py`.
The filesystem is a list of existing paths; `project_root` is the module's
`PROJECT_ROOT`. -/

/-- What `resolve_media_source` hands to the sender: either the pass-through
string (URL / `attach://` reference) or an `FSInputFile` on a local path. -/
inductive MediaSource
  | url (s : String)
  | fsFile (path : String)
deriving Repr, DecidableEq

/-- Python `str.strip()`: drop whitespace from both ends. -/
def pyStrip (s : String) : String :=
  ⟨((s.data.dropWhile Char.isWhitespace).reverse.dropWhile Char.isWhitespace).reverse⟩

/-- Python `str.startswith`. -/
def pyStartsWith (s pre : String) : Bool :=
  pre.data.isPrefixOf s.data

/-- Python `Path.is_absolute()` on POSIX. -/
def isAbsolutePath (p : String) : Bool :=
  pyStartsWith p "/"

/-- The join `PROJECT_ROOT / candidate` for a relative candidate. -/
def joinPath (root rel : String) : String :=
  root ++ "/" ++ rel

/-- Embeds `resolve_media_source`: falsy input → `(None, None)`; strip; falsy after
strip → `(None, None)`; `http://`/`https://`/`attach://` → pass-through;
otherwise resolve against `project_root` when relative, and return the file
when it exists, else `(None, absolute path)`. -/
def resolve_media_source (fs : List String) (project_root : String) (path : Option String) :
    Option MediaSource × Option String :=
  match path with
  | none => (none, none)
  | some p =>
      if p = "" then (none, none)
      else
        let normalized := pyStrip p
        if normalized = "" then (none, none)
        else if pyStartsWith normalized "http://" || pyStartsWith normalized "https://" ||
            pyStartsWith normalized "attach://" then
          (some (.url normalized), some normalized)
        else
          let candidate :=
            if isAbsolutePath normalized then normalized else joinPath project_root normalized
          if fs.contains candidate then (some (.fsFile candidate), some candidate)
          else (none, some candidate)

/-! ### Observations on a store -/

/-- The owning user's spendable balance as the credit ledger reads it:
`COALESCE(balance, 0)`, and 0 when the row is absent. -/
def balance_of (st : Store) (uid : Int) : Int :=
  match lookupA st.users uid with
  | none => 0
  | some u => coalesceI u.balance 0

/-- The status of a complaint, `none` when the row is absent. -/
def status_of (st : Store) (cid : Int) : Option String :=
  (lookupA st.complaints cid).map (fun c => c.status)

/-- The reserved balance as the guard reads it: `COALESCE(reserved_balance, 0)`,
and 0 when the row is absent. -/
def reserved_of (st : Store) (uid : Int) : Int :=
  match lookupA st.users uid with
  | none => 0
  | some u => coalesceI u.reserved_balance 0

/-- The generation cost resolved for a complaint: the Cost Policy when a
truthy subcategory is referenced, otherwise the 200-credit baseline. -/
def resolved_cost (st : Store) (c : ComplaintRow) : Int :=
  match truthyI c.subcategory_id with
  | some sid => db_get_generation_cost_by_subcategory st sid
  | none => 200

/-! ### A concrete store for witnesses: one user (id 42, balance 50,
reserve 150), one pending complaint (id 1) referencing subcategory 7
(duration 7, legacy price 75, scenario 3 with difficulty "medium", so the
cost policy resolves 110). -/

def exComplaint : ComplaintRow :=
  { user_id := 42, subcategory_id := some 7, status := "pending", bot_id := some "ab12cd34ef56" }

def exStore : Store :=
  { users := [(42, { balance := some 50, reserved_balance := some 150 })]
    complaints := [(1, exComplaint)]
    tasks := []
    subcategories := [(7, { is_active := true, duration := some 7, price := some 75, scenario_id := 3 })]
    scenarios := [(3, { difficulty := some "medium" })] }

/-- A store whose complaint 5 is already `accepted`, for re-deciding. -/
def redecideStore : Store :=
  { exStore with
    complaints :=
      [(5, { user_id := 42, subcategory_id := some 7, status := "accepted",
             bot_id := none })] }

/-- The C1 contract, stated for one complaint row `c` stored under id `cid`. -/
def decide_balance_contract (st : Store) (cid : Int) (c : ComplaintRow) : Prop :=
  status_of (apply_complaint_decision st cid .accept).1 cid = some "accepted" ∧
  balance_of (apply_complaint_decision st cid .accept).1 c.user_id =
    balance_of st c.user_id + resolved_cost st c ∧
  status_of (apply_complaint_decision st cid .reject).1 cid = some "rejected" ∧
  balance_of (apply_complaint_decision st cid .reject).1 c.user_id =
    balance_of st c.user_id - resolved_cost st c ∧
  (lookupA (apply_complaint_decision st cid .accept).1.users c.user_id).isSome = true ∧
  (lookupA st.users c.user_id = none →
    lookupA (apply_complaint_decision st cid .accept).1.users c.user_id =
      some { balance := some (0 + resolved_cost st c), reserved_balance := none })

/-- A store exercising the guard: user 42 has 150 reserved and no tasks,
user 43 has 0 reserved, user 44 has 80 reserved and one task in the
non-terminal status `processing`. -/
def guardStore : Store :=
  { users := [(42, { balance := some 50, reserved_balance := some 150 }),
              (43, { balance := some 10, reserved_balance := some 0 }),
              (44, { balance := none, reserved_balance := some 80 })]
    complaints := []
    tasks := [{ user_id := 44, status := some "processing" }]
    subcategories := []
    scenarios := [] }

/-- The Cost Policy exactly as the specification words it: the stored duration
is bucketed literally by `≤5 → 5, ≤10 → 10, >10 → 15` and the fixed table is
consulted (unknown tag defaulting to 110); without a difficulty tag a
configured legacy fixed price is used verbatim; otherwise 200. -/
def cost_spec (duration : Int) (difficulty : Option String) (legacy_price : Option Int) : Int :=
  match difficulty with
  | some tag =>
      cost_matrix_lookup (if duration ≤ 5 then 5 else if duration ≤ 10 then 10 else 15) tag
  | none =>
      match legacy_price with
      | some p => p
      | none => 200

/-! ### Association-list lemmas -/

theorem lookupA_updateA_self {α : Type} (f : α → α) (l : List (Int × α)) (k : Int) :
    lookupA (updateA f l k) k = (lookupA l k).map f := by
  induction l with
  | nil => rfl
  | cons hd tl ih =>
      obtain ⟨k', v⟩ := hd
      by_cases h : k' = k <;> simp [lookupA, updateA, h, ih]

theorem lookupA_updateA_ne {α : Type} (f : α → α) (l : List (Int × α)) (k k' : Int)
    (h : k ≠ k') :
    lookupA (updateA f l k) k' = lookupA l k' := by
  induction l with
  | nil => rfl
  | cons hd tl ih =>
      obtain ⟨k'', v⟩ := hd
      by_cases h1 : k'' = k
      · subst h1
        simp [lookupA, updateA, h, ih]
      · by_cases h2 : k'' = k' <;> simp [lookupA, updateA, h1, h2, Ne.symm h, ih]

theorem lookupA_append {α : Type} (l m : List (Int × α)) (k : Int) :
    lookupA (l ++ m) k =
      (match lookupA l k with
       | some v => some v
       | none => lookupA m k) := by
  induction l with
  | nil => rfl
  | cons hd tl ih =>
      obtain ⟨k', v⟩ := hd
      by_cases h : k' = k <;> simp [lookupA, h, ih]

/-! ### Small lemmas about the store operations -/

theorem db_update_complaint_status_users (st : Store) (cid : Int) (s : String) :
    (db_update_complaint_status st cid s).users = st.users := rfl

theorem db_add_credits_complaints (st : Store) (uid delta : Int) :
    (db_add_credits st uid delta).complaints = st.complaints := rfl

theorem balance_of_add_credits (st : Store) (uid delta : Int) :
    balance_of (db_add_credits st uid delta) uid = balance_of st uid + delta := by
  unfold balance_of db_add_credits
  cases h : lookupA st.users uid with
  | none =>
      have h2 : lookupA
          (st.users ++ [(uid, ({ balance := some 0, reserved_balance := none } : UserRow))])
          uid = some { balance := some 0, reserved_balance := none } := by
        rw [lookupA_append, h]
        simp [lookupA]
      simp [h, lookupA_updateA_self, h2, coalesceI]
  | some u =>
      simp [h, lookupA_updateA_self, coalesceI]

theorem db_add_credits_row_isSome (st : Store) (uid delta : Int) :
    (lookupA (db_add_credits st uid delta).users uid).isSome = true := by
  unfold db_add_credits
  cases h : lookupA st.users uid with
  | none =>
      have h2 : lookupA
          (st.users ++ [(uid, ({ balance := some 0, reserved_balance := none } : UserRow))])
          uid = some { balance := some 0, reserved_balance := none } := by
        rw [lookupA_append, h]
        simp [lookupA]
      simp [h, lookupA_updateA_self, h2]
  | some u =>
      simp [h, lookupA_updateA_self]

theorem db_add_credits_creates_row (st : Store) (uid delta : Int)
    (h : lookupA st.users uid = none) :
    lookupA (db_add_credits st uid delta).users uid =
      some { balance := some (0 + delta), reserved_balance := none } := by
  unfold db_add_credits
  have h2 : lookupA
      (st.users ++ [(uid, ({ balance := some 0, reserved_balance := none } : UserRow))])
      uid = some { balance := some 0, reserved_balance := none } := by
    rw [lookupA_append, h]
    simp [lookupA]
  simp [h, lookupA_updateA_self, h2, coalesceI]

theorem status_of_update_status (st : Store) (cid : Int) (s : String) :
    status_of (db_update_complaint_status st cid s) cid =
      (lookupA st.complaints cid).map (fun _ => s) := by
  unfold status_of db_update_complaint_status
  simp [lookupA_updateA_self]
  cases lookupA st.complaints cid <;> rfl


theorem cost_ignores_complaints (st : Store) (cid : Int) (s : String) (sid : Int) :
    db_get_generation_cost_by_subcategory (db_update_complaint_status st cid s) sid =
      db_get_generation_cost_by_subcategory st sid := rfl

theorem status_of_add_credits (st : Store) (uid delta : Int) (cid : Int) :
    status_of (db_add_credits st uid delta) cid = status_of st cid := rfl

theorem balance_of_update_status (st : Store) (cid : Int) (s : String) (uid : Int) :
    balance_of (db_update_complaint_status st cid s) uid = balance_of st uid := rfl

/-- Reduction of `apply_complaint_decision` on a present complaint: the final
store is the status update followed by the signed credit delta, the result
record is filled from the complaint and the decision config, and the trace
lists the database effects in source order. -/
theorem apply_decision_eq (st : Store) (cid : Int) (c : ComplaintRow) (k : DecisionKey)
    (h : db_get_complaint_by_id st cid = some c) :
    apply_complaint_decision st cid k =
      (db_add_credits (db_update_complaint_status st cid (COMPLAINT_DECISIONS k).status)
         c.user_id (resolved_cost st c * (COMPLAINT_DECISIONS k).delta_sign),
       some
         { complaint_id := cid
           user_id := c.user_id
           bot_hash := c.bot_id
           user_message := (COMPLAINT_DECISIONS k).user_message (resolved_cost st c) cid
           status := (COMPLAINT_DECISIONS k).status
           moderator_success := (COMPLAINT_DECISIONS k).moderator_success
           moderator_warning := (COMPLAINT_DECISIONS k).moderator_warning },
       [.getComplaint cid, .updateStatus cid (COMPLAINT_DECISIONS k).status] ++
         (match truthyI c.subcategory_id with
          | some sid => [DbEvent.costLookup sid]
          | none => []) ++
         [.addCredits c.user_id (resolved_cost st c * (COMPLAINT_DECISIONS k).delta_sign)]) := by
  cases hsc : truthyI c.subcategory_id <;>
    (simp only [apply_complaint_decision, h, hsc, resolved_cost]; try rfl)


example : resolved_cost exStore exComplaint = 110 := by decide
example : balance_of (apply_complaint_decision exStore 1 .accept).1 42 = 160 := by decide
example : balance_of (apply_complaint_decision exStore 1 .reject).1 42 = -60 := by decide
example : status_of (apply_complaint_decision exStore 1 .reject).1 1 = some "rejected" := by decide

/-! ### Claim theorems -/


/-- C1: for every stored complaint, `decide(id, accept)` sets the status to
`accepted` and adds exactly the resolved cost to the owning user's balance,
`decide(id, reject)` sets `rejected` and subtracts exactly the resolved cost
(no lower bound on the balance is enforced — the subtraction is unconditional,
so the balance may go negative), and an absent user row is created with zero
starting balance before the delta is applied. -/
theorem decide_sets_status_and_moves_balance (st : Store) (cid : Int) (c : ComplaintRow)
    (h : db_get_complaint_by_id st cid = some c) :
    decide_balance_contract st cid c := by
  have hl : lookupA st.complaints cid = some c := h
  have ha := apply_decision_eq st cid c .accept h
  have hr := apply_decision_eq st cid c .reject h
  unfold decide_balance_contract
  rw [ha, hr]
  refine ⟨?_, ?_, ?_, ?_, ?_, ?_⟩
  · rw [status_of_add_credits, status_of_update_status, hl]
    rfl
  · rw [balance_of_add_credits, balance_of_update_status]
    simp [COMPLAINT_DECISIONS]
  · rw [status_of_add_credits, status_of_update_status, hl]
    rfl
  · rw [balance_of_add_credits, balance_of_update_status]
    simp [COMPLAINT_DECISIONS]
    ring
  · exact db_add_credits_row_isSome _ _ _
  · intro habs
    have habs1 : lookupA (db_update_complaint_status st cid
        (COMPLAINT_DECISIONS .accept).status).users c.user_id = none := habs
    rw [db_add_credits_creates_row _ _ _ habs1]
    simp [COMPLAINT_DECISIONS]

/-- Witness for C1: the concrete store — accepting complaint 1 moves user 42
from 50 to 160 credits, rejecting moves it to −60 (negative, no floor). -/
theorem decide_sets_status_and_moves_balance_witness :
    decide_balance_contract exStore 1 exComplaint ∧
    balance_of (apply_complaint_decision exStore 1 .accept).1 42 = 160 ∧
    balance_of (apply_complaint_decision exStore 1 .reject).1 42 = -60 :=
  ⟨decide_sets_status_and_moves_balance exStore 1 exComplaint (by decide),
   by decide, by decide⟩

/-- C4: deciding a complaint id that is not in the store returns `None` and
leaves the store untouched — every user's balance and every complaint's
status are unchanged. -/
theorem decide_not_found_is_noop (st : Store) (cid : Int) (k : DecisionKey)
    (h : db_get_complaint_by_id st cid = none) :
    apply_complaint_decision st cid k = (st, none, [.getComplaint cid]) ∧
    (∀ uid, balance_of (apply_complaint_decision st cid k).1 uid = balance_of st uid) ∧
    (∀ cid', status_of (apply_complaint_decision st cid k).1 cid' = status_of st cid') := by
  have heq : apply_complaint_decision st cid k = (st, none, [.getComplaint cid]) := by
    unfold apply_complaint_decision
    rw [h]
  exact ⟨heq, fun uid => by rw [heq], fun cid' => by rw [heq]⟩

/-- Witness for C4: complaint 99 does not exist in the concrete store, so the
decision call is a no-op returning `none`. -/
theorem decide_not_found_is_noop_witness :
    apply_complaint_decision exStore 99 .accept = (exStore, none, [.getComplaint 99]) ∧
    balance_of (apply_complaint_decision exStore 99 .accept).1 42 = 50 :=
  ⟨(decide_not_found_is_noop exStore 99 .accept (by decide)).1, by decide⟩

/-! ### Guard claims -/


/-- C3 (code bug): because `db_get_user`'s dict never carries the stored
reserve — the unaliased `COALESCE(reserved_balance, 0)` column is named
`coalesce`, so `row.get("reserved_balance", 0)` is always 0 — the guard reads
`reserved = 0` for every existing user and always answers the
"nothing to release" failure without mutating state (and "user not found"
for an absent user).  The claimed refusal and success cases are unreachable
in the program, whatever the store holds and whatever the queries do. -/
theorem release_reserved_never_releases (st : Store) (uid : Int)
    (activeOk resetOk : Bool) :
    (∀ u, lookupA st.users uid = some u →
      release_reserved_balance st uid activeOk resetOk =
        (st, ⟨false, 0, "ℹ️ Резервов нет", some "ℹ️ Резервов нет"⟩)) ∧
    (lookupA st.users uid = none →
      release_reserved_balance st uid activeOk resetOk =
        (st, ⟨false, 0, "❌ Пользователь не найден", some "❌ Пользователь не найден"⟩)) := by
  constructor
  · intro u h
    simp [release_reserved_balance, db_get_user, h]
  · intro h
    simp [release_reserved_balance, db_get_user, h]

/-- Witness for C3's failing input: user 42 of `guardStore` has a stored
reserve of 150 and no active generations — the spec's contract promises a
successful release of 150 — yet the call reports "nothing to release" and
changes nothing. -/
theorem release_reserved_never_releases_witness :
    reserved_of guardStore 42 = 150 ∧
    has_active_generations_query guardStore 42 = false ∧
    release_reserved_balance guardStore 42 true true =
      (guardStore, ⟨false, 0, "ℹ️ Резервов нет", some "ℹ️ Резервов нет"⟩) :=
  ⟨by decide, by decide,
   (release_reserved_never_releases guardStore 42 true true).1
     { balance := some 50, reserved_balance := some 150 } (by decide)⟩

/-- C8: the reservation guard fails safe — when the active-generations query
raises (`queryOk = false`), `db_user_has_active_generations` reports `True`,
so `release_reserved_balance` never releases: whatever the store holds, the
outcome is unsuccessful and the store is unchanged. -/
theorem active_check_fails_safe (st : Store) (uid : Int) :
    db_user_has_active_generations st uid false = true ∧
    (∀ resetOk, (release_reserved_balance st uid false resetOk).1 = st ∧
      (release_reserved_balance st uid false resetOk).2.success = false) := by
  refine ⟨rfl, fun resetOk => ?_⟩
  unfold release_reserved_balance
  cases h : db_get_user st uid with
  | none => simp [h]
  | some u =>
      by_cases hr : u.reserved_balance ≤ 0 <;>
        simp [h, hr, db_user_has_active_generations]

/-- C6: deciding is not idempotent — on a complaint that is already
`accepted` or `rejected`, a further pair of decide calls re-applies the
credit delta each time: the balance moves by the sum of both deltas, and the
second call still returns a result rather than refusing. -/
theorem decide_reapplies_delta (st : Store) (cid : Int) (c : ComplaintRow)
    (h : db_get_complaint_by_id st cid = some c)
    (_hdecided : c.status = "accepted" ∨ c.status = "rejected")
    (k1 k2 : DecisionKey) :
    balance_of
        (apply_complaint_decision (apply_complaint_decision st cid k1).1 cid k2).1 c.user_id =
      balance_of st c.user_id +
        resolved_cost st c * (COMPLAINT_DECISIONS k1).delta_sign +
        resolved_cost st c * (COMPLAINT_DECISIONS k2).delta_sign ∧
    (apply_complaint_decision (apply_complaint_decision st cid k1).1 cid k2).2.1.isSome
      = true := by
  have hpr := apply_decision_eq st cid c k1 h
  have hc1 : db_get_complaint_by_id (apply_complaint_decision st cid k1).1 cid =
      some { c with status := (COMPLAINT_DECISIONS k1).status } := by
    rw [hpr]
    show lookupA (updateA _ st.complaints cid) cid = _
    rw [lookupA_updateA_self]
    rw [show lookupA st.complaints cid = some c from h]
    rfl
  have h2 := apply_decision_eq (apply_complaint_decision st cid k1).1 cid
    { c with status := (COMPLAINT_DECISIONS k1).status } k2 hc1
  have hcost : resolved_cost (apply_complaint_decision st cid k1).1
      { c with status := (COMPLAINT_DECISIONS k1).status } = resolved_cost st c := by
    rw [hpr]
    unfold resolved_cost
    cases truthyI c.subcategory_id <;> rfl
  constructor
  · rw [h2]
    show balance_of (db_add_credits _ _ _) _ = _
    rw [balance_of_add_credits, balance_of_update_status, hcost, hpr]
    show balance_of (db_add_credits _ _ _) _ + _ = _
    rw [balance_of_add_credits, balance_of_update_status]
  · rw [h2]
    rfl

theorem decide_reapplies_delta_witness :
    balance_of
        (apply_complaint_decision (apply_complaint_decision redecideStore 5 .accept).1
          5 .accept).1 42 = 270 ∧
    balance_of redecideStore 42 = 50 := by
  have h := decide_reapplies_delta redecideStore 5
    { user_id := 42, subcategory_id := some 7, status := "accepted", bot_id := none }
    (by decide) (Or.inl rfl) .accept .accept
  exact ⟨by rw [h.1]; decide, by decide⟩

/-! ### Step order of the decision engine (C5) -/

/-- Counterexample to C5 as stated: on the concrete store the decision
engine's trace updates the complaint status *before* resolving the cost —
it is not the claimed cost-then-status order. -/
theorem decide_step_order_counterexample :
    (apply_complaint_decision exStore 1 .accept).2.2 =
      [.getComplaint 1, .updateStatus 1 "accepted", .costLookup 7, .addCredits 42 110] ∧
    (apply_complaint_decision exStore 1 .accept).2.2 ≠
      [.getComplaint 1, .costLookup 7, .updateStatus 1 "accepted", .addCredits 42 110] := by
  decide

/-- C5 amended: for every existing complaint the engine first updates the
status, then resolves the generation cost (via the cost lookup exactly when a
truthy subcategory is referenced), and applies the credit delta last. -/
theorem decide_step_order (st : Store) (cid : Int) (c : ComplaintRow) (k : DecisionKey)
    (h : db_get_complaint_by_id st cid = some c) :
    (apply_complaint_decision st cid k).2.2 =
      [.getComplaint cid, .updateStatus cid (COMPLAINT_DECISIONS k).status] ++
        (match truthyI c.subcategory_id with
         | some sid => [DbEvent.costLookup sid]
         | none => []) ++
        [.addCredits c.user_id (resolved_cost st c * (COMPLAINT_DECISIONS k).delta_sign)] := by
  rw [apply_decision_eq st cid c k h]

/-- Witness for the amended C5 on the concrete store. -/
theorem decide_step_order_witness :
    (apply_complaint_decision exStore 1 .reject).2.2 =
      [.getComplaint 1, .updateStatus 1 "rejected", .costLookup 7, .addCredits 42 (-110)] := by
  rw [decide_step_order exStore 1 exComplaint .reject (by decide)]
  decide

/-! ### Cost-policy claims -/


/-- Counterexample to C2 as stated, one concrete input per divergence of the
code from the claim's literal function: (1) at stored duration 0 with tag
`low` the code prices the 10-minute tier (90), not the 70 of the literal
`≤5 → 5` bucketing; (2) a configured legacy price of 0 is not used verbatim —
the code falls through to 200; (3) the tag `HIGH` is not an unknown tag
defaulting to 110 — the code lowercases it and prices `high` (130 at tier
10); (4) the empty tag `""` is not a present tag read from the table (110
for unknown) — the code treats it as absent and uses the legacy price. -/
theorem cost_policy_spec_counterexample :
    (generation_cost_policy (some 0) none (some "low") = 90 ∧
     cost_spec 0 (some "low") none = 70 ∧
     generation_cost_policy (some 0) none (some "low") ≠ cost_spec 0 (some "low") none) ∧
    (generation_cost_policy (some 10) (some 0) none = 200 ∧
     cost_spec 10 none (some 0) = 0 ∧
     generation_cost_policy (some 10) (some 0) none ≠ cost_spec 10 none (some 0)) ∧
    (generation_cost_policy (some 10) none (some "HIGH") = 130 ∧
     cost_spec 10 (some "HIGH") none = 110 ∧
     generation_cost_policy (some 10) none (some "HIGH") ≠ cost_spec 10 (some "HIGH") none) ∧
    (generation_cost_policy (some 10) (some 75) (some "") = 75 ∧
     cost_spec 10 (some "") (some 75) = 110 ∧
     generation_cost_policy (some 10) (some 75) (some "") ≠ cost_spec 10 (some "") (some 75)) := by
  decide

/-- C2 amended: the code's cost is a pure function of (duration, difficulty,
legacy price) agreeing with the spec's table function whenever the stored
duration is positive (a NULL or 0 duration is first replaced by 10), the
difficulty tag — when present — is non-empty and already lowercase (matching
is case-insensitive), and the legacy price — when present — is nonzero (a 0
price falls through to the 200 default); the spec's five sample evaluations
all hold. -/
theorem cost_policy_matches_spec :
    (∀ (d : Int) (p : Option Int) (t : Option String),
      0 < d →
      (∀ s, t = some s → s ≠ "" ∧ lowerStr s = s) →
      (∀ x, p = some x → x ≠ 0) →
      generation_cost_policy (some d) p t = cost_spec d t p) ∧
    generation_cost_policy (some 7) none (some "medium") = 110 ∧
    generation_cost_policy (some 3) none (some "high") = 110 ∧
    generation_cost_policy (some 20) none (some "low") = 110 ∧
    generation_cost_policy (some 10) (some 75) none = 75 ∧
    generation_cost_policy (some 10) none none = 200 := by
  refine ⟨?_, by decide, by decide, by decide, by decide, by decide⟩
  intro d p t hd ht hp
  have hdne : d ≠ 0 := ne_of_gt hd
  cases t with
  | some s =>
      obtain ⟨hs1, hs2⟩ := ht s rfl
      simp only [generation_cost_policy, cost_spec, truthyS, truthyI, coalesceI,
        if_neg hdne, if_neg hs1, hs2]
  | none =>
      cases p with
      | none =>
          simp only [generation_cost_policy, cost_spec, truthyS, truthyI, coalesceI,
            if_neg hdne]
      | some x =>
          have hx := hp x rfl
          simp only [generation_cost_policy, cost_spec, truthyS, truthyI, coalesceI,
            if_neg hdne, if_neg hx]

/-- Witness for C2 amended: duration 7 with lowercase tag `medium` and no
legacy price satisfies all hypotheses and both sides evaluate to 110. -/
theorem cost_policy_matches_spec_witness :
    generation_cost_policy (some 7) none (some "medium") = cost_spec 7 (some "medium") none ∧
    cost_spec 7 (some "medium") none = 110 :=
  ⟨cost_policy_matches_spec.1 7 none (some "medium") (by decide)
     (fun s hs => by cases hs; exact ⟨by decide, by decide⟩)
     (fun x hx => by cases hx),
   by decide⟩

theorem cost_matrix_lookup_unknown (k : Int) (t : String)
    (h1 : t ≠ "low") (h2 : t ≠ "medium") (h3 : t ≠ "high") :
    cost_matrix_lookup k t = 110 := by
  unfold cost_matrix_lookup
  split_ifs <;> simp_all

/-- C9: difficulty matching is case-insensitive — the tag is lowercased
before the table lookup, so `HIGH`, `High` and `high` price identically for
every duration; and any non-empty tag whose lowercase form is not
low/medium/high yields the 110 default. -/
theorem difficulty_matching_case_insensitive :
    (∀ (dur p : Option Int),
      generation_cost_policy dur p (some "HIGH") = generation_cost_policy dur p (some "high") ∧
      generation_cost_policy dur p (some "High") = generation_cost_policy dur p (some "high")) ∧
    (∀ (dur p : Option Int) (s : String), s ≠ "" →
      lowerStr s ≠ "low" → lowerStr s ≠ "medium" → lowerStr s ≠ "high" →
      generation_cost_policy dur p (some s) = 110) := by
  constructor
  · intro dur p
    have e1 : lowerStr "HIGH" = "high" := by decide
    have e2 : lowerStr "High" = "high" := by decide
    have e3 : lowerStr "high" = "high" := by decide
    constructor <;>
      simp only [generation_cost_policy, truthyS, if_neg (by decide : ¬("HIGH" = "")),
        if_neg (by decide : ¬("High" = "")), if_neg (by decide : ¬("high" = "")),
        e1, e2, e3]
  · intro dur p s hs h1 h2 h3
    simp only [generation_cost_policy, truthyS, if_neg hs]
    exact cost_matrix_lookup_unknown _ _ h1 h2 h3

/-- Witness for C9: at duration 12 the tags `HIGH` and `high` both price 150,
and the unknown tag `weird?` prices 110. -/
theorem difficulty_matching_case_insensitive_witness :
    generation_cost_policy (some 12) none (some "HIGH") =
      generation_cost_policy (some 12) none (some "high") ∧
    generation_cost_policy (some 12) none (some "high") = 150 ∧
    generation_cost_policy (some 12) none (some "weird?") = 110 :=
  ⟨(difficulty_matching_case_insensitive.1 (some 12) none).1,
   by decide,
   difficulty_matching_case_insensitive.2 (some 12) none "weird?"
     (by decide) (by decide) (by decide) (by decide)⟩

/-- C10: a NULL or 0 stored duration is priced exactly as duration 10 — the
falsy duration is replaced by 10 before bucketing — so with a difficulty tag
it lands in the 10-minute tier (low → 90), not the 70 that the literal
`≤5 → 5` bucketing of duration 0 would give. -/
theorem falsy_duration_priced_as_ten :
    (∀ (p : Option Int) (t : Option String),
      generation_cost_policy none p t = generation_cost_policy (some 10) p t) ∧
    (∀ (p : Option Int) (t : Option String),
      generation_cost_policy (some 0) p t = generation_cost_policy (some 10) p t) ∧
    generation_cost_policy (some 0) none (some "low") = 90 ∧
    generation_cost_policy (some 0) none (some "low") ≠ 70 := by
  exact ⟨fun p t => rfl, fun p t => rfl, by decide, by decide⟩

/-! ### Media resolution (C7) -/

/-- Counterexample to C7 as stated: a path that begins with `https://` but
carries trailing whitespace is *not* passed through unchanged — the code
strips it first and returns the trimmed string. -/
theorem resolve_media_passthrough_counterexample :
    pyStartsWith "https://x/y.mp4 " "https://" = true ∧
    resolve_media_source [] "/app" (some "https://x/y.mp4 ") =
      (some (.url "https://x/y.mp4"), some "https://x/y.mp4") ∧
    (resolve_media_source [] "/app" (some "https://x/y.mp4 ")).2 ≠ some "https://x/y.mp4 " := by
  decide

/-- C7 amended: after stripping surrounding whitespace, a path beginning with
`http://`, `https://` or `attach://` is passed through (stripped) as both the
media source and the reported path; a filesystem path, resolved against the
project root when relative, that does not exist yields no media payload and
the resolved absolute path; empty or whitespace-only input (and `None`)
yields no media and no path. -/
theorem resolve_media_contract (fs : List String) (root p : String) :
    resolve_media_source fs root none = (none, none) ∧
    (pyStrip p = "" → resolve_media_source fs root (some p) = (none, none)) ∧
    ((pyStartsWith (pyStrip p) "http://" || pyStartsWith (pyStrip p) "https://" ||
        pyStartsWith (pyStrip p) "attach://") = true →
      resolve_media_source fs root (some p) =
        (some (.url (pyStrip p)), some (pyStrip p))) ∧
    ((pyStartsWith (pyStrip p) "http://" || pyStartsWith (pyStrip p) "https://" ||
        pyStartsWith (pyStrip p) "attach://") = false →
      pyStrip p ≠ "" →
      fs.contains
        (if isAbsolutePath (pyStrip p) then pyStrip p else joinPath root (pyStrip p)) = false →
      resolve_media_source fs root (some p) =
        (none,
         some (if isAbsolutePath (pyStrip p) then pyStrip p
               else joinPath root (pyStrip p)))) := by
  refine ⟨rfl, ?_, ?_, ?_⟩
  · intro h
    by_cases hp : p = ""
    · subst hp; rfl
    · simp [resolve_media_source, hp, h]
  · intro hurl
    have hps : pyStrip p ≠ "" := by
      intro h0
      rw [h0] at hurl
      exact absurd hurl (by decide)
    have hp : p ≠ "" := by
      intro h0
      subst h0
      exact hps rfl
    simp [resolve_media_source, hp, hps, hurl]
  · intro hurl hps hmem
    have hp : p ≠ "" := by
      intro h0
      subst h0
      exact hps rfl
    have hmem' :
        (if isAbsolutePath (pyStrip p) then pyStrip p else joinPath root (pyStrip p)) ∉ fs := by
      simpa using hmem
    simp [resolve_media_source, hp, hps, hurl, hmem']

/-- Witness for C7 amended: `https://x/y.mp4` passes through; relative
`videos/a.mp4` against root `/app` with no such file resolves to
`(no media, /app/videos/a.mp4)`; whitespace-only input yields nothing. -/
theorem resolve_media_contract_witness :
    resolve_media_source [] "/app" (some "https://x/y.mp4") =
      (some (.url "https://x/y.mp4"), some "https://x/y.mp4") ∧
    resolve_media_source [] "/app" (some "videos/a.mp4") =
      (none, some "/app/videos/a.mp4") ∧
    resolve_media_source [] "/app" (some "   ") = (none, none) := by
  refine ⟨?_, ?_, ?_⟩
  · rw [(resolve_media_contract [] "/app" "https://x/y.mp4").2.2.1 (by decide)]
    decide
  · rw [(resolve_media_contract [] "/app" "videos/a.mp4").2.2.2 (by decide) (by decide)
      (by decide)]
    decide
  · exact (resolve_media_contract [] "/app" "   ").2.1 (by decide)

example : generation_cost_policy (some 7) none (some "medium") = 110 := by decide
example : generation_cost_policy (some 3) none (some "high") = 110 := by decide
example : generation_cost_policy (some 20) none (some "low") = 110 := by decide
example : generation_cost_policy (some 10) (some 75) none = 75 := by decide
example : generation_cost_policy (some 10) none none = 200 := by decide
example : generation_cost_policy (some 0) none (some "low") = 90 := by decide
example : generation_cost_policy none none (some "low") = 90 := by decide
example : generation_cost_policy (some 10) (some 0) none = 200 := by decide

end ModeratorBot
